import Mathlib

/-!
Verification of the Pull_Assigner reviewer-assignment service.

The SQLAlchemy-backed operations of `interaction.py` are embedded as pure
functions over an explicit store `DB` holding the five entity tables of
`schem.py` as lists in row-insertion order (SQLite returns rows in rowid
order when no ORDER BY is given, which is insertion order here, so
`.first()` / `.limit(2)` become `List.find?` / `List.take 2` on these
lists).  Each operation takes the store and returns the response envelope
together with the store after commit (on failure the session is rolled
back, so the store comes back unchanged).  `datetime.now()` is modelled as
an explicit clock parameter `now`.

The session is built with `autoflush=False` (`database.py`), so a SQL
query issued after in-session attribute mutations filters on the
PRE-mutation column values while returning the mutated in-memory objects;
the embedding reproduces this where it matters (the team lookup of
`set_user_active_flag`).
-/

/-- `schem.User`: user_id (primary key), username, is_active. -/
structure User where
  user_id : String
  username : String
  is_active : Bool
deriving Repr, DecidableEq

/-- `schem.Team`: team_name (primary key). -/
structure Team where
  team_name : String
deriving Repr, DecidableEq

/-- `schem.TeamMember`: composite primary key (user_id, team_name),
denormalized username, independent is_active flag. -/
structure TeamMember where
  user_id : String
  team_name : String
  username : String
  is_active : Bool
deriving Repr, DecidableEq

/-- `schem.PRStatus`: two-valued status enum. -/
inductive PRStatus where
  | OPEN
  | MERGED
deriving Repr, DecidableEq

/-- `PRStatus.value`: the string payload of the Python enum member. -/
def PRStatus.value : PRStatus → String
  | .OPEN => "OPEN"
  | .MERGED => "MERGED"

/-- `schem.PullRequest`: pull_request_id (primary key), name, author, status. -/
structure PullRequest where
  pull_request_id : String
  pull_request_name : String
  author_id : String
  status : PRStatus
deriving Repr, DecidableEq

/-- `schem.PullRequestReviewer`: composite primary key
(pull_request_id, user_id), one row per assigned reviewer. -/
structure PullRequestReviewer where
  pull_request_id : String
  user_id : String
deriving Repr, DecidableEq

/-- The persisted store: one list per table, in row-insertion order. -/
structure DB where
  users : List User
  teams : List Team
  team_members : List TeamMember
  pull_requests : List PullRequest
  pr_reviewers : List PullRequestReviewer
deriving Repr, DecidableEq

/-- Error codes of the response envelopes in `interaction.py`.
SERVER_ERROR is the catch-all for unexpected exceptions; the pure
embedding never raises, so it is never produced here. -/
inductive ErrCode where
  | TEAM_EXISTS
  | TEAM_NOT_FOUND
  | USER_NOT_FOUND
  | PR_EXISTS
  | AUTHOR_NOT_FOUND
  | PR_NOT_FOUND
  | PR_MERGED
  | NOT_ASSIGNED
  | USER_NOT_IN_TEAM
  | NO_CANDIDATE
  | INTEGRITY_ERROR
  | SERVER_ERROR
deriving Repr, DecidableEq

/-- One entry of the `members` input of `create_team_with_members`. -/
structure MemberIn where
  user_id : String
  username : String
  is_active : Bool
deriving Repr, DecidableEq

/-- One entry of the `created_members` list in the create-team response. -/
structure TeamMemberOut where
  user_id : String
  username : String
  team_name : String
  is_active : Bool
deriving Repr, DecidableEq

/-- Success payload of `create_team_with_members`. -/
structure CreateTeamResp where
  team_name : String
  members : List TeamMemberOut
deriving Repr, DecidableEq

/-- One entry of the members list in the get-team response. -/
structure GetTeamMemberOut where
  user_id : String
  username : String
  is_active : Bool
deriving Repr, DecidableEq

/-- Success payload of `get_team_with_members`. -/
structure GetTeamResp where
  team_name : String
  members : List GetTeamMemberOut
deriving Repr, DecidableEq

/-- Success payload of `set_user_active_flag`. -/
structure SetActiveResp where
  user_id : String
  username : String
  team_name : Option String
  is_active : Bool
deriving Repr, DecidableEq

/-- Success payload of `create_pull_request_with_reviewers`. -/
structure CreatePRResp where
  pull_request_id : String
  pull_request_name : String
  author_id : String
  status : String
  assigned_reviewers : List String
deriving Repr, DecidableEq

/-- Success payload of `merge_pull_request`; `mergedAt` is the clock
instant at which the response was built (`datetime.now().isoformat()`). -/
structure MergeResp where
  pull_request_id : String
  pull_request_name : String
  author_id : String
  status : String
  assigned_reviewers : List String
  mergedAt : Nat
deriving Repr, DecidableEq

/-- One PR summary in the get-user-review response. -/
structure ReviewPROut where
  pull_request_id : String
  pull_request_name : String
  author_id : String
  status : String
deriving Repr, DecidableEq

/-- Success payload of `get_user_review_pull_requests`. -/
structure ReviewListResp where
  user_id : String
  pull_requests : List ReviewPROut
deriving Repr, DecidableEq

/-- Success payload of `reassign_pull_request_reviewer`. -/
structure ReassignResp where
  pull_request_id : String
  pull_request_name : String
  author_id : String
  status : String
  assigned_reviewers : List String
  replaced_by : String
deriving Repr, DecidableEq

/-- Mutate the first list element satisfying `p` (the object returned by
`.first()` on the session query), leaving the rest untouched. -/
def updateFirst (p : α → Bool) (f : α → α) : List α → List α
  | [] => []
  | x :: xs => if p x then f x :: xs else x :: updateFirst p f xs

/-- Membership test on composite-key pairs, used to model the database's
primary-key uniqueness check at INSERT time. -/
def keyMem (k : String × String) : List (String × String) → Bool
  | [] => false
  | x :: xs => (x.1 == k.1 && x.2 == k.2) || keyMem k xs

/-- `true` exactly when flushing INSERTs with keys `ks` into a table that
already holds keys `ex` violates the primary-key constraint: some new key
equals an existing key or an earlier new key. -/
def insertConflicts (ex : List (String × String)) : List (String × String) → Bool
  | [] => false
  | k :: ks => keyMem k ex || keyMem k ks || insertConflicts ex ks

/-- `db.merge(user)`: update the row with this user_id if present,
otherwise insert it at the end. -/
def upsertUser (users : List User) (u : User) : List User :=
  if users.any (fun x => x.user_id == u.user_id) then
    users.map (fun x => if x.user_id == u.user_id then u else x)
  else
    users ++ [u]

/-- `interaction.create_team_with_members`: reject an existing team_name,
otherwise create the Team row, upsert each member's User row, insert one
TeamMember row per member, and commit; a primary-key violation among the
inserted TeamMember rows raises IntegrityError, which rolls everything
back and returns INTEGRITY_ERROR. -/
def create_team_with_members (db : DB) (team_name : String)
    (members : List MemberIn) : Except ErrCode CreateTeamResp × DB :=
  if (db.teams.find? (fun t => t.team_name == team_name)).isSome then
    (.error .TEAM_EXISTS, db)
  else
    if insertConflicts (db.team_members.map (fun m => (m.user_id, m.team_name)))
        (members.map (fun m => (m.user_id, team_name))) then
      (.error .INTEGRITY_ERROR, db)
    else
      (.ok { team_name := team_name,
             members := members.map (fun m =>
               { user_id := m.user_id, username := m.username,
                 team_name := team_name, is_active := m.is_active }) },
       { db with
         teams := db.teams ++ [{ team_name := team_name }],
         users := members.foldl (fun us m =>
           upsertUser us { user_id := m.user_id, username := m.username,
                           is_active := m.is_active }) db.users,
         team_members := db.team_members ++ members.map (fun m =>
           { user_id := m.user_id, team_name := team_name,
             username := m.username, is_active := m.is_active }) })

/-- `interaction.get_team_with_members`: TEAM_NOT_FOUND if absent,
otherwise the members of the team filtered to is_active = true. -/
def get_team_with_members (db : DB) (team_name : String) :
    Except ErrCode GetTeamResp × DB :=
  match db.teams.find? (fun t => t.team_name == team_name) with
  | none => (.error .TEAM_NOT_FOUND, db)
  | some _ =>
    (.ok { team_name := team_name,
           members := (db.team_members.filter (fun m =>
               m.team_name == team_name && m.is_active)).map (fun m =>
             { user_id := m.user_id, username := m.username,
               is_active := m.is_active }) },
     db)

/-- `interaction.set_user_active_flag`: USER_NOT_FOUND if absent,
otherwise set the user's flag, set the flag of every TeamMember row of
the user, and report the team of the first active membership.  The
team query runs before the pending updates are flushed
(`autoflush=False`), so its `is_active == True` filter is evaluated on
the PRE-update flags. -/
def set_user_active_flag (db : DB) (user_id : String) (is_active : Bool) :
    Except ErrCode SetActiveResp × DB :=
  match db.users.find? (fun u => u.user_id == user_id) with
  | none => (.error .USER_NOT_FOUND, db)
  | some user =>
    (.ok { user_id := user.user_id, username := user.username,
           team_name := (db.team_members.find? (fun m =>
             m.user_id == user_id && m.is_active)).map (fun m => m.team_name),
           is_active := is_active },
     { db with
       users := updateFirst (fun u => u.user_id == user_id)
         (fun u => { u with is_active := is_active }) db.users,
       team_members := db.team_members.map (fun m =>
         if m.user_id == user_id then { m with is_active := is_active } else m) })

/-- `interaction.create_pull_request_with_reviewers`: PR_EXISTS if the id
is taken, AUTHOR_NOT_FOUND if no ACTIVE user has the author id,
TEAM_NOT_FOUND if the author has no active membership; otherwise take the
first two active non-author members of the author's team as reviewers,
insert the PR row and one reviewer row each, and commit (a reviewer
primary-key violation would roll back as INTEGRITY_ERROR). -/
def create_pull_request_with_reviewers (db : DB) (pull_request_id : String)
    (pull_request_name : String) (author_id : String) :
    Except ErrCode CreatePRResp × DB :=
  if (db.pull_requests.find? (fun p =>
      p.pull_request_id == pull_request_id)).isSome then
    (.error .PR_EXISTS, db)
  else
    match db.users.find? (fun u => u.user_id == author_id && u.is_active) with
    | none => (.error .AUTHOR_NOT_FOUND, db)
    | some _ =>
      match db.team_members.find? (fun m =>
          m.user_id == author_id && m.is_active) with
      | none => (.error .TEAM_NOT_FOUND, db)
      | some author_team_member =>
        if insertConflicts
            (db.pr_reviewers.map (fun r => (r.pull_request_id, r.user_id)))
            (((db.team_members.filter (fun m =>
                m.team_name == author_team_member.team_name &&
                m.user_id != author_id && m.is_active)).take 2).map
              (fun r => (pull_request_id, r.user_id))) then
          (.error .INTEGRITY_ERROR, db)
        else
          (.ok { pull_request_id := pull_request_id,
                 pull_request_name := pull_request_name,
                 author_id := author_id,
                 status := "OPEN",
                 assigned_reviewers := ((db.team_members.filter (fun m =>
                     m.team_name == author_team_member.team_name &&
                     m.user_id != author_id && m.is_active)).take 2).map
                   (fun r => r.user_id) },
           { db with
             pull_requests := db.pull_requests ++
               [{ pull_request_id := pull_request_id,
                  pull_request_name := pull_request_name,
                  author_id := author_id, status := .OPEN }],
             pr_reviewers := db.pr_reviewers ++
               ((db.team_members.filter (fun m =>
                   m.team_name == author_team_member.team_name &&
                   m.user_id != author_id && m.is_active)).take 2).map
                 (fun r => { pull_request_id := pull_request_id,
                             user_id := r.user_id }) })

/-- `interaction.merge_pull_request`: PR_NOT_FOUND if absent; if already
MERGED return the current data unchanged (idempotent); if OPEN flip the
status of the found row to MERGED and commit.  Both success branches
stamp `mergedAt` with the clock instant `now` of the call. -/
def merge_pull_request (db : DB) (now : Nat) (pull_request_id : String) :
    Except ErrCode MergeResp × DB :=
  match db.pull_requests.find? (fun p =>
      p.pull_request_id == pull_request_id) with
  | none => (.error .PR_NOT_FOUND, db)
  | some pr =>
    if pr.status = PRStatus.MERGED then
      (.ok { pull_request_id := pr.pull_request_id,
             pull_request_name := pr.pull_request_name,
             author_id := pr.author_id,
             status := "MERGED",
             assigned_reviewers := (db.pr_reviewers.filter (fun r =>
               r.pull_request_id == pull_request_id)).map (fun r => r.user_id),
             mergedAt := now },
       db)
    else
      (.ok { pull_request_id := pr.pull_request_id,
             pull_request_name := pr.pull_request_name,
             author_id := pr.author_id,
             status := "MERGED",
             assigned_reviewers := (db.pr_reviewers.filter (fun r =>
               r.pull_request_id == pull_request_id)).map (fun r => r.user_id),
             mergedAt := now },
       { db with
         pull_requests := updateFirst (fun p =>
             p.pull_request_id == pull_request_id)
           (fun p => { p with status := .MERGED }) db.pull_requests })

/-- `interaction.get_user_review_pull_requests`: USER_NOT_FOUND if the
user row is absent (the check ignores the active flag), otherwise every
PR that has a reviewer row naming this user, with its current status. -/
def get_user_review_pull_requests (db : DB) (user_id : String) :
    Except ErrCode ReviewListResp × DB :=
  match db.users.find? (fun u => u.user_id == user_id) with
  | none => (.error .USER_NOT_FOUND, db)
  | some _ =>
    (.ok { user_id := user_id,
           pull_requests := (db.pr_reviewers.filter (fun r =>
               r.user_id == user_id)).filterMap (fun a =>
             (db.pull_requests.find? (fun p =>
                 p.pull_request_id == a.pull_request_id)).map (fun pr =>
               { pull_request_id := pr.pull_request_id,
                 pull_request_name := pr.pull_request_name,
                 author_id := pr.author_id,
                 status := pr.status.value })) },
     db)

/-- `interaction.reassign_pull_request_reviewer`: checks, in order,
PR_NOT_FOUND, PR_MERGED, NOT_ASSIGNED, USER_NOT_IN_TEAM; then searches
the old reviewer's team for the first active member who is neither the
PR's author nor any currently assigned reviewer of the PR; NO_CANDIDATE
if none; otherwise overwrites the user_id of the found reviewer row in
place and commits. -/
def reassign_pull_request_reviewer (db : DB) (pull_request_id : String)
    (old_user_id : String) : Except ErrCode ReassignResp × DB :=
  match db.pull_requests.find? (fun p =>
      p.pull_request_id == pull_request_id) with
  | none => (.error .PR_NOT_FOUND, db)
  | some pr =>
    if pr.status = PRStatus.MERGED then
      (.error .PR_MERGED, db)
    else
      match db.pr_reviewers.find? (fun r =>
          r.pull_request_id == pull_request_id && r.user_id == old_user_id) with
      | none => (.error .NOT_ASSIGNED, db)
      | some _ =>
        match db.team_members.find? (fun m =>
            m.user_id == old_user_id && m.is_active) with
        | none => (.error .USER_NOT_IN_TEAM, db)
        | some old_reviewer_team =>
          match db.team_members.find? (fun m =>
              m.team_name == old_reviewer_team.team_name &&
              m.user_id != pr.author_id &&
              !((db.pr_reviewers.filter (fun r =>
                  r.pull_request_id == pull_request_id)).map
                (fun r => r.user_id)).contains m.user_id &&
              m.is_active) with
          | none => (.error .NO_CANDIDATE, db)
          | some candidate =>
            (.ok { pull_request_id := pr.pull_request_id,
                   pull_request_name := pr.pull_request_name,
                   author_id := pr.author_id,
                   status := pr.status.value,
                   assigned_reviewers := ((updateFirst (fun r =>
                       r.pull_request_id == pull_request_id &&
                       r.user_id == old_user_id)
                     (fun r => { r with user_id := candidate.user_id })
                     db.pr_reviewers).filter (fun r =>
                       r.pull_request_id == pull_request_id)).map
                     (fun r => r.user_id),
                   replaced_by := candidate.user_id },
             { db with
               pr_reviewers := updateFirst (fun r =>
                   r.pull_request_id == pull_request_id &&
                   r.user_id == old_user_id)
                 (fun r => { r with user_id := candidate.user_id })
                 db.pr_reviewers })

/-- A concrete store exercising the operations: the §8 example of the
spec — team "payments" with four active members and one OPEN PR
"pr-1001" authored by u1 with reviewers u2 and u3. -/
def exampleDB : DB where
  users := [⟨"u1", "Alice", true⟩, ⟨"u2", "Bob", true⟩,
            ⟨"u3", "Charlie", true⟩, ⟨"u4", "David", true⟩]
  teams := [⟨"payments"⟩]
  team_members := [⟨"u1", "payments", "Alice", true⟩,
                   ⟨"u2", "payments", "Bob", true⟩,
                   ⟨"u3", "payments", "Charlie", true⟩,
                   ⟨"u4", "payments", "David", true⟩]
  pull_requests := [⟨"pr-1001", "Add search", "u1", .OPEN⟩]
  pr_reviewers := [⟨"pr-1001", "u2"⟩, ⟨"pr-1001", "u3"⟩]

/-- The PR row of `exampleDB`. -/
def examplePR : PullRequest := ⟨"pr-1001", "Add search", "u1", .OPEN⟩

/-- `exampleDB` after "pr-1001" has been merged. -/
def exampleMergedDB : DB :=
  { exampleDB with pull_requests := [⟨"pr-1001", "Add search", "u1", .MERGED⟩] }

/-- The PR row of `exampleMergedDB`. -/
def examplePRMerged : PullRequest := ⟨"pr-1001", "Add search", "u1", .MERGED⟩

/-- The response of merging "pr-1001" in `exampleDB` at instant 5. -/
def exampleMergeResp : MergeResp :=
  ⟨"pr-1001", "Add search", "u1", "MERGED", ["u2", "u3"], 5⟩

/-- The response of reassigning reviewer u2 of "pr-1001" in `exampleDB`:
the replacement is u4, the only active team member who is neither the
author u1 nor an assigned reviewer. -/
def exampleReassignResp : ReassignResp :=
  ⟨"pr-1001", "Add search", "u1", "OPEN", ["u4", "u3"], "u4"⟩

/-- `exampleDB` after that reassignment: the first reviewer row now
names u4, in place. -/
def exampleReassignedDB : DB :=
  { exampleDB with pr_reviewers := [⟨"pr-1001", "u4"⟩, ⟨"pr-1001", "u3"⟩] }

/-- The response of creating "pr-2" authored by u4 in `exampleDB`: the
first two active non-author members of "payments" are u1 and u2. -/
def exampleCreateResp : CreatePRResp :=
  ⟨"pr-2", "Fix bug", "u4", "OPEN", ["u1", "u2"]⟩

/-- `exampleDB` after creating "pr-2" authored by u4. -/
def exampleCreatedDB : DB :=
  { exampleDB with
    pull_requests := [⟨"pr-1001", "Add search", "u1", .OPEN⟩,
                      ⟨"pr-2", "Fix bug", "u4", .OPEN⟩],
    pr_reviewers := [⟨"pr-1001", "u2"⟩, ⟨"pr-1001", "u3"⟩,
                     ⟨"pr-2", "u1"⟩, ⟨"pr-2", "u2"⟩] }

/-! ### Helper lemmas about the session-mutation primitives -/

theorem updateFirst_length (p : α → Bool) (f : α → α) (l : List α) :
    (updateFirst p f l).length = l.length := by
  induction l with
  | nil => rfl
  | cons x xs ih =>
    simp only [updateFirst]
    split <;> simp [ih]

theorem map_updateFirst (p : α → Bool) (f : α → α) (g : α → β)
    (hg : ∀ x, g (f x) = g x) (l : List α) :
    (updateFirst p f l).map g = l.map g := by
  induction l with
  | nil => rfl
  | cons x xs ih =>
    simp only [updateFirst]
    split <;> simp [ih, hg]

theorem find?_updateFirst (p : α → Bool) (f : α → α)
    (hf : ∀ x, p (f x) = p x) (l : List α) :
    (updateFirst p f l).find? p = (l.find? p).map f := by
  induction l with
  | nil => rfl
  | cons x xs ih =>
    simp only [updateFirst]
    by_cases h : p x
    · rw [if_pos h, List.find?_cons_of_pos _ (by rw [hf]; exact h),
        List.find?_cons_of_pos _ h, Option.map_some']
    · rw [if_neg (by simpa using h), List.find?_cons_of_neg _ (by simpa using h),
        List.find?_cons_of_neg _ (by simpa using h), ih]

theorem updateFirst_eq_append (p : α → Bool) (f : α → α) (l : List α) (r : α)
    (h : l.find? p = some r) :
    ∃ l₁ l₂, l = l₁ ++ r :: l₂ ∧ updateFirst p f l = l₁ ++ f r :: l₂ := by
  induction l with
  | nil => simp at h
  | cons x xs ih =>
    by_cases hx : p x
    · rw [List.find?_cons_of_pos _ hx, Option.some.injEq] at h
      subst h
      exact ⟨[], xs, rfl, by simp [updateFirst, hx]⟩
    · rw [List.find?_cons_of_neg _ (by simpa using hx)] at h
      obtain ⟨l₁, l₂, h1, h2⟩ := ih h
      exact ⟨x :: l₁, l₂, by simp [h1], by simp [updateFirst, hx, h2]⟩

theorem keyMem_iff (k : String × String) (l : List (String × String)) :
    keyMem k l = true ↔ k ∈ l := by
  induction l with
  | nil => simp [keyMem]
  | cons x xs ih =>
    simp only [keyMem, Bool.or_eq_true, Bool.and_eq_true, beq_iff_eq, ih,
      List.mem_cons]
    constructor
    · rintro (⟨h1, h2⟩ | h)
      · exact Or.inl (Prod.ext_iff.mpr ⟨h1, h2⟩).symm
      · exact Or.inr h
    · rintro (rfl | h)
      · exact Or.inl ⟨rfl, rfl⟩
      · exact Or.inr h

theorem insertConflicts_eq_false (ex ks : List (String × String))
    (h1 : ∀ k ∈ ks, k ∉ ex) (h2 : ks.Nodup) : insertConflicts ex ks = false := by
  induction ks with
  | nil => rfl
  | cons k ks ih =>
    rw [List.nodup_cons] at h2
    simp only [insertConflicts, Bool.or_eq_false_iff]
    refine ⟨⟨?_, ?_⟩, ih (fun x hx => h1 x (List.mem_cons_of_mem _ hx)) h2.2⟩
    · rw [← Bool.not_eq_true, keyMem_iff]
      exact h1 k (List.mem_cons_self _ _)
    · rw [← Bool.not_eq_true, keyMem_iff]
      exact h2.1

theorem insertConflicts_of_dup (ex ks : List (String × String))
    (h : ¬ ks.Nodup) : insertConflicts ex ks = true := by
  induction ks with
  | nil => exact absurd List.nodup_nil h
  | cons k ks ih =>
    rw [List.nodup_cons] at h
    push_neg at h
    simp only [insertConflicts, Bool.or_eq_true]
    by_cases hk : k ∈ ks
    · exact Or.inl (Or.inr ((keyMem_iff k ks).mpr hk))
    · exact Or.inr (ih (h hk))

theorem nodup_fst_of_pairs {α : Type} (l : List α) (f g : α → String) (c : String)
    (hc : ∀ m ∈ l, g m = c)
    (h : (l.map (fun m => (f m, g m))).Nodup) : (l.map f).Nodup := by
  induction l with
  | nil => simp
  | cons x xs ih =>
    simp only [List.map_cons, List.nodup_cons] at h ⊢
    refine ⟨?_, ih (fun m hm => hc m (List.mem_cons_of_mem _ hm)) h.2⟩
    intro hmem
    obtain ⟨y, hy, hfy⟩ := List.mem_map.mp hmem
    refine h.1 (List.mem_map.mpr ⟨y, hy, ?_⟩)
    rw [hfy, hc y (List.mem_cons_of_mem _ hy), hc x (List.mem_cons_self _ _)]

theorem nodup_pairs_const_fst (l : List String) (c : String)
    (h : l.Nodup) : (l.map (fun u => (c, u))).Nodup :=
  h.map (fun a b hab => by injection hab)

/-! ### Claim theorems -/

/-- Claim C10: `get_team_with_members` and `get_user_review_pull_requests`
are read-only — on every store and every input, success or failure, the
store they hand back is exactly the one they were given. -/
theorem get_operations_read_only (db : DB) (team_name user_id : String) :
    (get_team_with_members db team_name).2 = db ∧
    (get_user_review_pull_requests db user_id).2 = db := by
  constructor
  · unfold get_team_with_members
    cases db.teams.find? (fun t => t.team_name == team_name) <;> rfl
  · unfold get_user_review_pull_requests
    cases db.users.find? (fun u => u.user_id == user_id) <;> rfl

/-- Claim C6: on a PR whose status is MERGED, reassignment fails with
PR_MERGED for every old_user_id — the MERGED check runs before the
NOT_ASSIGNED, USER_NOT_IN_TEAM and NO_CANDIDATE checks — and the failure
leaves the store unchanged. -/
theorem reassign_on_merged_pr_always_pr_merged (db : DB) (pid : String)
    (pr : PullRequest)
    (hpr : db.pull_requests.find? (fun p => p.pull_request_id == pid) = some pr)
    (hm : pr.status = PRStatus.MERGED) :
    ∀ old_user_id, reassign_pull_request_reviewer db pid old_user_id =
      (.error .PR_MERGED, db) := by
  intro old
  unfold reassign_pull_request_reviewer
  rw [hpr]
  simp [hm]

/-- Claim C6 witness: on the merged example store, reassigning u2 on
"pr-1001" fails with PR_MERGED and changes nothing. -/
theorem reassign_on_merged_pr_always_pr_merged_witness :
    reassign_pull_request_reviewer exampleMergedDB "pr-1001" "u2" =
      (.error .PR_MERGED, exampleMergedDB) :=
  reassign_on_merged_pr_always_pr_merged exampleMergedDB "pr-1001"
    examplePRMerged rfl rfl "u2"

/-- Claim C7: `mergedAt` is computed from the clock at response time and
no merge instant is persisted — merging an already-MERGED PR at two
distinct instants succeeds both times, returns distinct mergedAt stamps,
and leaves the stored PR state identical (unchanged) both times. -/
theorem merged_at_fresh_not_persisted (db : DB) (pid : String)
    (pr : PullRequest) (t1 t2 : Nat)
    (hpr : db.pull_requests.find? (fun p => p.pull_request_id == pid) = some pr)
    (hm : pr.status = PRStatus.MERGED) (hne : t1 ≠ t2) :
    ∃ r1 r2 : MergeResp,
      merge_pull_request db t1 pid = (.ok r1, db) ∧
      merge_pull_request db t2 pid = (.ok r2, db) ∧
      r1.mergedAt = t1 ∧ r2.mergedAt = t2 ∧ r1.mergedAt ≠ r2.mergedAt := by
  refine ⟨{ pull_request_id := pr.pull_request_id,
            pull_request_name := pr.pull_request_name,
            author_id := pr.author_id, status := "MERGED",
            assigned_reviewers := (db.pr_reviewers.filter (fun r =>
              r.pull_request_id == pid)).map (fun r => r.user_id),
            mergedAt := t1 },
          { pull_request_id := pr.pull_request_id,
            pull_request_name := pr.pull_request_name,
            author_id := pr.author_id, status := "MERGED",
            assigned_reviewers := (db.pr_reviewers.filter (fun r =>
              r.pull_request_id == pid)).map (fun r => r.user_id),
            mergedAt := t2 },
          ?_, ?_, rfl, rfl, hne⟩ <;>
  · unfold merge_pull_request
    rw [hpr]
    simp [hm]

/-- Claim C7 witness: merging the already-merged "pr-1001" at instants 5
and 7 returns stamps 5 and 7 while the store stays put. -/
theorem merged_at_fresh_not_persisted_witness :
    ∃ r1 r2 : MergeResp,
      merge_pull_request exampleMergedDB 5 "pr-1001" = (.ok r1, exampleMergedDB) ∧
      merge_pull_request exampleMergedDB 7 "pr-1001" = (.ok r2, exampleMergedDB) ∧
      r1.mergedAt = 5 ∧ r2.mergedAt = 7 ∧ r1.mergedAt ≠ r2.mergedAt :=
  merged_at_fresh_not_persisted exampleMergedDB "pr-1001" examplePRMerged 5 7
    rfl rfl (by decide)

/-- Claim C1: for a user present in the store, `set_user_active_flag`
succeeds, sets that user's flag, and writes the same value into every
TeamMember row of that user across all teams, so afterwards no membership
row of the user differs from the user's flag. -/
theorem set_user_active_propagates_flag (db : DB) (uid : String) (flag : Bool)
    (h : (db.users.find? (fun u => u.user_id == uid)).isSome) :
    (∃ resp, (set_user_active_flag db uid flag).1 = .ok resp) ∧
    ((set_user_active_flag db uid flag).2.users.find?
        (fun u => u.user_id == uid)).map (fun u => u.is_active) = some flag ∧
    ∀ m ∈ (set_user_active_flag db uid flag).2.team_members,
      m.user_id = uid → m.is_active = flag := by
  obtain ⟨user, huser⟩ := Option.isSome_iff_exists.mp h
  simp only [set_user_active_flag, huser]
  refine ⟨⟨_, rfl⟩, ?_, ?_⟩
  · rw [find?_updateFirst (fun (u : User) => u.user_id == uid)
      (fun (u : User) => { u with is_active := flag }) (fun x => rfl), huser]
    rfl
  · intro m hm hmid
    simp only [List.mem_map] at hm
    obtain ⟨x, hx, hfx⟩ := hm
    by_cases hxu : x.user_id == uid
    · rw [if_pos hxu] at hfx
      rw [← hfx]
    · rw [if_neg hxu] at hfx
      subst hfx
      exact absurd (beq_iff_eq.mpr hmid) hxu

/-- Claim C1 witness: deactivating u1 in the example store succeeds and
flips both the user row and every membership row of u1 to false. -/
theorem set_user_active_propagates_flag_witness :
    (∃ resp, (set_user_active_flag exampleDB "u1" false).1 = .ok resp) ∧
    ((set_user_active_flag exampleDB "u1" false).2.users.find?
        (fun u => u.user_id == "u1")).map (fun u => u.is_active) = some false ∧
    ∀ m ∈ (set_user_active_flag exampleDB "u1" false).2.team_members,
      m.user_id = "u1" → m.is_active = false :=
  set_user_active_propagates_flag exampleDB "u1" false (by rfl)

/-- Claim C4 counterexample: deactivating u1 — who has an active
membership in "payments" — returns team_name = some "payments", not the
null the claim requires: the session has autoflush disabled, so the
team query's is_active filter still sees the pre-update flags. -/
theorem set_user_active_team_name_counterexample :
    (set_user_active_flag exampleDB "u1" false).1 =
      .ok { user_id := "u1", username := "Alice",
            team_name := some "payments", is_active := false } := by
  rfl

/-- Claim C4 (amended): for an existing user, `set_user_active_flag`
returns the team_name of the first membership of that user that was
active BEFORE the flag change — the query filter is evaluated on the
unflushed pre-update rows — or none when the user had no active
membership before the change. -/
theorem set_user_active_team_name_pre_update (db : DB) (uid : String)
    (flag : Bool)
    (h : (db.users.find? (fun u => u.user_id == uid)).isSome) :
    ∃ resp, (set_user_active_flag db uid flag).1 = .ok resp ∧
      resp.team_name = (db.team_members.find? (fun m =>
        m.user_id == uid && m.is_active)).map (fun m => m.team_name) := by
  obtain ⟨user, huser⟩ := Option.isSome_iff_exists.mp h
  simp only [set_user_active_flag, huser]
  exact ⟨_, rfl, rfl⟩

/-- Claim C4 amended witness: deactivating u2 reports "payments", the
team of u2's (only) membership that was active before the change. -/
theorem set_user_active_team_name_pre_update_witness :
    ∃ resp, (set_user_active_flag exampleDB "u2" false).1 = .ok resp ∧
      resp.team_name = (exampleDB.team_members.find? (fun m =>
        m.user_id == "u2" && m.is_active)).map (fun m => m.team_name) :=
  set_user_active_team_name_pre_update exampleDB "u2" false (by rfl)

/-- Claim C5: merging is idempotent — a successful merge reports status
MERGED, and merging the same id again succeeds with status MERGED, the
identical reviewer list, no error, and a store identical to the one left
by the first call (no duplicate side effects). -/
theorem merge_pull_request_idempotent (db : DB) (pid : String) (t1 t2 : Nat)
    (resp1 : MergeResp) (db1 : DB)
    (h1 : merge_pull_request db t1 pid = (.ok resp1, db1)) :
    resp1.status = "MERGED" ∧
    ∃ resp2, merge_pull_request db1 t2 pid = (.ok resp2, db1) ∧
      resp2.status = "MERGED" ∧
      resp2.assigned_reviewers = resp1.assigned_reviewers := by
  unfold merge_pull_request at h1
  split at h1
  · exact absurd h1 (by simp)
  next pr hpr =>
    split at h1
    next hst =>
      simp only [Prod.mk.injEq, Except.ok.injEq] at h1
      obtain ⟨hresp, hdb⟩ := h1
      subst hresp
      subst hdb
      refine ⟨rfl, ?_⟩
      unfold merge_pull_request
      rw [hpr]
      simp only [hst, if_pos rfl]
      exact ⟨_, rfl, rfl, rfl⟩
    next hst =>
      simp only [Prod.mk.injEq, Except.ok.injEq] at h1
      obtain ⟨hresp, hdb⟩ := h1
      subst hresp
      subst hdb
      refine ⟨rfl, ?_⟩
      unfold merge_pull_request
      rw [show (updateFirst (fun p => p.pull_request_id == pid)
          (fun p => { p with status := .MERGED }) db.pull_requests).find?
          (fun p => p.pull_request_id == pid) = some { pr with status := .MERGED } by
        rw [find?_updateFirst (fun (p : PullRequest) => p.pull_request_id == pid)
          (fun (p : PullRequest) => { p with status := PRStatus.MERGED })
          (fun x => rfl), hpr]
        rfl]
      simp only [if_pos rfl]
      exact ⟨_, rfl, rfl, rfl⟩

/-- Claim C5 witness: merging "pr-1001" at instant 5 and again at 7
yields MERGED both times with the same reviewers and no second mutation. -/
theorem merge_pull_request_idempotent_witness :
    exampleMergeResp.status = "MERGED" ∧
    ∃ resp2, merge_pull_request exampleMergedDB 7 "pr-1001" =
        (.ok resp2, exampleMergedDB) ∧
      resp2.status = "MERGED" ∧
      resp2.assigned_reviewers = exampleMergeResp.assigned_reviewers :=
  merge_pull_request_idempotent exampleDB "pr-1001" 5 7 exampleMergeResp
    exampleMergedDB rfl

/-- Claim C8: with a fresh PR id, creation fails with AUTHOR_NOT_FOUND
exactly when no User row with the author id has is_active = true — an
inactive author is rejected identically to a missing one — and that
failure leaves the store unchanged, so no PR or reviewer rows are
created. -/
theorem create_pr_author_not_found_iff (db : DB) (pid name author : String)
    (hfresh : db.pull_requests.find? (fun p => p.pull_request_id == pid) = none) :
    (((create_pull_request_with_reviewers db pid name author).1 =
        .error .AUTHOR_NOT_FOUND) ↔
      ∀ u ∈ db.users, ¬(u.user_id = author ∧ u.is_active = true)) ∧
    ((∀ u ∈ db.users, ¬(u.user_id = author ∧ u.is_active = true)) →
      create_pull_request_with_reviewers db pid name author =
        (.error .AUTHOR_NOT_FOUND, db)) := by
  have hnone : (db.users.find? (fun u => u.user_id == author && u.is_active)
      = none) ↔ ∀ u ∈ db.users, ¬(u.user_id = author ∧ u.is_active = true) := by
    rw [List.find?_eq_none]
    simp only [Bool.and_eq_true, beq_iff_eq, not_and]
  constructor
  · cases hau : db.users.find? (fun u => u.user_id == author && u.is_active) with
    | none =>
      simp only [create_pull_request_with_reviewers, hfresh, Option.isSome_none,
        Bool.false_eq_true, if_false, hau]
      exact ⟨fun _ => hnone.mp hau, fun _ => trivial⟩
    | some u =>
      have hp := List.find?_some hau
      simp only [Bool.and_eq_true, beq_iff_eq] at hp
      have hforall : ¬ ∀ v ∈ db.users, ¬(v.user_id = author ∧ v.is_active = true) :=
        fun hall => hall u (List.mem_of_find?_eq_some hau) hp
      have hne : (create_pull_request_with_reviewers db pid name author).1 ≠
          .error .AUTHOR_NOT_FOUND := by
        simp only [create_pull_request_with_reviewers, hfresh, Option.isSome_none,
          Bool.false_eq_true, if_false, hau]
        split
        · simp
        · split <;> simp
      exact ⟨fun hcontra => absurd hcontra hne, fun hall => absurd hall hforall⟩
  · intro hall
    have hau : db.users.find? (fun u => u.user_id == author && u.is_active)
        = none := hnone.mpr hall
    simp only [create_pull_request_with_reviewers, hfresh, Option.isSome_none,
      Bool.false_eq_true, if_false, hau]

/-- Claim C8 witness: creating "pr-9" with the nonexistent author u9 on a
fresh id fails with AUTHOR_NOT_FOUND and leaves the example store as is. -/
theorem create_pr_author_not_found_iff_witness :
    (((create_pull_request_with_reviewers exampleDB "pr-9" "X" "u9").1 =
        .error .AUTHOR_NOT_FOUND) ↔
      ∀ u ∈ exampleDB.users, ¬(u.user_id = "u9" ∧ u.is_active = true)) ∧
    ((∀ u ∈ exampleDB.users, ¬(u.user_id = "u9" ∧ u.is_active = true)) →
      create_pull_request_with_reviewers exampleDB "pr-9" "X" "u9" =
        (.error .AUTHOR_NOT_FOUND, exampleDB)) :=
  create_pr_author_not_found_iff exampleDB "pr-9" "X" "u9" rfl

/-- Claim C9: creating a fresh team whose members list repeats a user_id
fails with INTEGRITY_ERROR — the repeated (user_id, team_name) composite
key violates the TeamMember primary key at commit — and the rollback
leaves the store unchanged: no Team row, upserted User or membership row
survives. -/
theorem create_team_duplicate_member_integrity (db : DB) (tname : String)
    (members : List MemberIn)
    (hfresh : db.teams.find? (fun t => t.team_name == tname) = none)
    (hdup : ¬ (members.map (fun m => m.user_id)).Nodup) :
    create_team_with_members db tname members = (.error .INTEGRITY_ERROR, db) := by
  have hconf : insertConflicts
      (db.team_members.map (fun m => (m.user_id, m.team_name)))
      (members.map (fun m => (m.user_id, tname))) = true := by
    apply insertConflicts_of_dup
    intro hnd
    exact hdup (nodup_fst_of_pairs members (fun m => m.user_id)
      (fun _ => tname) tname (fun _ _ => rfl) hnd)
  simp [create_team_with_members, hfresh, hconf]

/-- Claim C9 witness: adding team "newteam" with member u9 listed twice
fails with INTEGRITY_ERROR and the example store is unchanged. -/
theorem create_team_duplicate_member_integrity_witness :
    create_team_with_members exampleDB "newteam"
        [⟨"u9", "Zoe", true⟩, ⟨"u9", "Zoe", true⟩] =
      (.error .INTEGRITY_ERROR, exampleDB) :=
  create_team_duplicate_member_integrity exampleDB "newteam"
    [⟨"u9", "Zoe", true⟩, ⟨"u9", "Zoe", true⟩] rfl (by decide)

/-- Claim C2: a successful reassignment returns a replacement that is
neither the PR's author nor any user assigned as reviewer on that PR at
call time (old_user_id included), and it rewrites the user_id of exactly
one existing reviewer row in place: the reviewer table keeps its length
and every row's PR association, and no other table changes. -/
theorem reassign_replacement_fresh_and_in_place (db : DB) (pid old : String)
    (resp : ReassignResp) (db' : DB) (pr : PullRequest)
    (h : reassign_pull_request_reviewer db pid old = (.ok resp, db'))
    (hpr : db.pull_requests.find? (fun p => p.pull_request_id == pid) = some pr) :
    resp.replaced_by ≠ pr.author_id ∧
    resp.replaced_by ∉ (db.pr_reviewers.filter (fun r =>
      r.pull_request_id == pid)).map (fun r => r.user_id) ∧
    old ∈ (db.pr_reviewers.filter (fun r =>
      r.pull_request_id == pid)).map (fun r => r.user_id) ∧
    (∃ l₁ row l₂, db.pr_reviewers = l₁ ++ row :: l₂ ∧
      row.pull_request_id = pid ∧ row.user_id = old ∧
      db'.pr_reviewers = l₁ ++ { row with user_id := resp.replaced_by } :: l₂) ∧
    db'.pr_reviewers.length = db.pr_reviewers.length ∧
    db'.pr_reviewers.map (fun r => r.pull_request_id) =
      db.pr_reviewers.map (fun r => r.pull_request_id) ∧
    db'.users = db.users ∧ db'.teams = db.teams ∧
    db'.team_members = db.team_members ∧
    db'.pull_requests = db.pull_requests := by
  unfold reassign_pull_request_reviewer at h
  split at h
  · simp at h
  next pr0 hpr0 =>
    rw [hpr] at hpr0
    injection hpr0 with hpr0
    subst hpr0
    split at h
    · simp at h
    next hst =>
      split at h
      · simp at h
      next asg hasg =>
        split at h
        · simp at h
        next tm htm =>
          split at h
          · simp at h
          next cand hcand =>
            have apred := List.find?_some hasg
            have amem := List.mem_of_find?_eq_some hasg
            simp only [Bool.and_eq_true, beq_iff_eq] at apred
            obtain ⟨a1, a2⟩ := apred
            have cpred := List.find?_some hcand
            simp only [Bool.and_eq_true, bne_iff_ne, Bool.not_eq_true'] at cpred
            obtain ⟨⟨⟨c1, c2⟩, c3⟩, c4⟩ := cpred
            simp only [Prod.mk.injEq, Except.ok.injEq] at h
            obtain ⟨hresp, hdb⟩ := h
            subst hresp
            subst hdb
            obtain ⟨l₁, l₂, hsp, hupd⟩ := updateFirst_eq_append
              (fun r => r.pull_request_id == pid && r.user_id == old)
              (fun r => { r with user_id := cand.user_id })
              db.pr_reviewers asg hasg
            refine ⟨c2, ?_, ?_, ⟨l₁, asg, l₂, hsp, a1, a2, hupd⟩,
              updateFirst_length _ _ _,
              map_updateFirst (fun r => r.pull_request_id == pid && r.user_id == old)
                (fun (r : PullRequestReviewer) => { r with user_id := cand.user_id })
                (fun r => r.pull_request_id) (fun x => rfl) db.pr_reviewers,
              rfl, rfl, rfl, rfl⟩
            · intro hmem2
              have hmem2' : cand.user_id ∈ (db.pr_reviewers.filter (fun r =>
                  r.pull_request_id == pid)).map (fun r => r.user_id) := hmem2
              have hcontains : ((db.pr_reviewers.filter (fun r =>
                  r.pull_request_id == pid)).map
                  (fun r => r.user_id)).contains cand.user_id = true :=
                List.elem_iff.mpr hmem2'
              rw [c3] at hcontains
              exact Bool.false_ne_true hcontains
            · exact List.mem_map.mpr ⟨asg,
                List.mem_filter.mpr ⟨amem, by simp [a1]⟩, a2⟩

/-- Claim C2 witness: reassigning u2 of "pr-1001" picks u4 — not the
author u1, not a current reviewer — and rewrites only the first reviewer
row. -/
theorem reassign_replacement_fresh_and_in_place_witness :
    exampleReassignResp.replaced_by ≠ examplePR.author_id ∧
    exampleReassignResp.replaced_by ∉ (exampleDB.pr_reviewers.filter (fun r =>
      r.pull_request_id == "pr-1001")).map (fun r => r.user_id) ∧
    "u2" ∈ (exampleDB.pr_reviewers.filter (fun r =>
      r.pull_request_id == "pr-1001")).map (fun r => r.user_id) ∧
    (∃ l₁ row l₂, exampleDB.pr_reviewers = l₁ ++ row :: l₂ ∧
      row.pull_request_id = "pr-1001" ∧ row.user_id = "u2" ∧
      exampleReassignedDB.pr_reviewers =
        l₁ ++ { row with user_id := exampleReassignResp.replaced_by } :: l₂) ∧
    exampleReassignedDB.pr_reviewers.length = exampleDB.pr_reviewers.length ∧
    exampleReassignedDB.pr_reviewers.map (fun r => r.pull_request_id) =
      exampleDB.pr_reviewers.map (fun r => r.pull_request_id) ∧
    exampleReassignedDB.users = exampleDB.users ∧
    exampleReassignedDB.teams = exampleDB.teams ∧
    exampleReassignedDB.team_members = exampleDB.team_members ∧
    exampleReassignedDB.pull_requests = exampleDB.pull_requests :=
  reassign_replacement_fresh_and_in_place exampleDB "pr-1001" "u2"
    exampleReassignResp exampleReassignedDB examplePR rfl rfl

/-- Claim C3: a successful PR creation never lists the author among the
assigned reviewers and never more than two of them; and whenever the id
is fresh, the author is an active user with an active membership, the
membership keys are unique and no reviewer row already carries the new
id, creation succeeds outright — zero available candidates included —
assigning exactly min(2, number of active non-author members of the
author's team) reviewers. -/
theorem create_pull_request_reviewer_bounds :
    (∀ (db : DB) (pid name author : String) (resp : CreatePRResp) (db' : DB),
      create_pull_request_with_reviewers db pid name author = (.ok resp, db') →
      author ∉ resp.assigned_reviewers ∧ resp.assigned_reviewers.length ≤ 2) ∧
    (∀ (db : DB) (pid name author : String) (atm : TeamMember),
      db.pull_requests.find? (fun p => p.pull_request_id == pid) = none →
      (db.users.find? (fun u => u.user_id == author && u.is_active)).isSome →
      db.team_members.find? (fun m => m.user_id == author && m.is_active) =
        some atm →
      (db.team_members.map (fun m => (m.user_id, m.team_name))).Nodup →
      (∀ r ∈ db.pr_reviewers, r.pull_request_id ≠ pid) →
      ∃ resp db', create_pull_request_with_reviewers db pid name author =
          (.ok resp, db') ∧
        resp.assigned_reviewers.length =
          min 2 (db.team_members.filter (fun m =>
            m.team_name == atm.team_name && m.user_id != author &&
            m.is_active)).length ∧
        author ∉ resp.assigned_reviewers) := by
  constructor
  · intro db pid name author resp db' h
    unfold create_pull_request_with_reviewers at h
    split at h
    · simp at h
    · split at h
      · simp at h
      · split at h
        · simp at h
        next atm htm =>
          split at h
          · simp at h
          next hconf =>
            simp only [Prod.mk.injEq, Except.ok.injEq] at h
            obtain ⟨hresp, hdb⟩ := h
            subst hresp
            constructor
            · intro hmem
              obtain ⟨m, hm, hmeq⟩ := List.mem_map.mp hmem
              have hpm := List.of_mem_filter (List.mem_of_mem_take hm)
              simp only [Bool.and_eq_true, bne_iff_ne] at hpm
              exact hpm.1.2 hmeq
            · show ((_ : List TeamMember).map _).length ≤ 2
              rw [List.length_map, List.length_take]
              exact min_le_left _ _
  · intro db pid name author atm hfresh hauthor hteam hnodup hnorev
    obtain ⟨u, hu⟩ := Option.isSome_iff_exists.mp hauthor
    have hc : ∀ m ∈ (db.team_members.filter (fun m =>
        m.team_name == atm.team_name && m.user_id != author &&
        m.is_active)).take 2, m.team_name = atm.team_name := by
      intro m hm
      have hpm := List.of_mem_filter (List.mem_of_mem_take hm)
      simp only [Bool.and_eq_true, beq_iff_eq] at hpm
      exact hpm.1.1
    have hsub : List.Sublist ((db.team_members.filter (fun m =>
        m.team_name == atm.team_name && m.user_id != author &&
        m.is_active)).take 2) db.team_members :=
      List.Sublist.trans (List.take_sublist _ _) (List.filter_sublist _)
    have hpairs : (((db.team_members.filter (fun m =>
        m.team_name == atm.team_name && m.user_id != author &&
        m.is_active)).take 2).map (fun m => (m.user_id, m.team_name))).Nodup :=
      List.Sublist.nodup (List.Sublist.map _ hsub) hnodup
    have hids : (((db.team_members.filter (fun m =>
        m.team_name == atm.team_name && m.user_id != author &&
        m.is_active)).take 2).map (fun m => m.user_id)).Nodup :=
      nodup_fst_of_pairs _ (fun (m : TeamMember) => m.user_id)
        (fun (m : TeamMember) => m.team_name) atm.team_name hc hpairs
    have hkeys : (((db.team_members.filter (fun m =>
        m.team_name == atm.team_name && m.user_id != author &&
        m.is_active)).take 2).map (fun m => (pid, m.user_id))).Nodup := by
      have h2 := nodup_pairs_const_fst _ pid hids
      rw [List.map_map] at h2
      exact h2
    have hconf : insertConflicts
        (db.pr_reviewers.map (fun r => (r.pull_request_id, r.user_id)))
        (((db.team_members.filter (fun m =>
          m.team_name == atm.team_name && m.user_id != author &&
          m.is_active)).take 2).map (fun r => (pid, r.user_id))) = false := by
      apply insertConflicts_eq_false
      · intro k hk hkex
        obtain ⟨m, hm, hmk⟩ := List.mem_map.mp hk
        obtain ⟨r, hr, hrk⟩ := List.mem_map.mp hkex
        subst hmk
        exact hnorev r hr (congrArg Prod.fst hrk)
      · exact hkeys
    refine ⟨{ pull_request_id := pid, pull_request_name := name,
              author_id := author, status := "OPEN",
              assigned_reviewers := ((db.team_members.filter (fun m =>
                  m.team_name == atm.team_name && m.user_id != author &&
                  m.is_active)).take 2).map (fun r => r.user_id) },
            { db with
              pull_requests := db.pull_requests ++
                [{ pull_request_id := pid, pull_request_name := name,
                   author_id := author, status := .OPEN }],
              pr_reviewers := db.pr_reviewers ++
                ((db.team_members.filter (fun m =>
                    m.team_name == atm.team_name && m.user_id != author &&
                    m.is_active)).take 2).map
                  (fun r => { pull_request_id := pid, user_id := r.user_id }) },
            ?_, ?_, ?_⟩
    · simp only [create_pull_request_with_reviewers, hfresh, Option.isSome_none,
        Bool.false_eq_true, if_false, hu, hteam, hconf]
    · show ((_ : List TeamMember).map _).length = _
      rw [List.length_map, List.length_take]
    · intro hmem
      obtain ⟨m, hm, hmeq⟩ := List.mem_map.mp hmem
      have hpm := List.of_mem_filter (List.mem_of_mem_take hm)
      simp only [Bool.and_eq_true, bne_iff_ne] at hpm
      exact hpm.1.2 hmeq

/-- Claim C3 witness: creating "pr-2" by u4 assigns u1 and u2 — not u4,
exactly min(2, 3) = 2 reviewers; the success branch is exercised with
both conjuncts of the claim. -/
theorem create_pull_request_reviewer_bounds_witness :
    (("u4" : String) ∉ exampleCreateResp.assigned_reviewers ∧
      exampleCreateResp.assigned_reviewers.length ≤ 2) ∧
    (∃ resp db', create_pull_request_with_reviewers exampleDB "pr-2" "Fix bug"
        "u4" = (.ok resp, db') ∧
      resp.assigned_reviewers.length =
        min 2 (exampleDB.team_members.filter (fun m =>
          m.team_name == "payments" && m.user_id != "u4" &&
          m.is_active)).length ∧
      ("u4" : String) ∉ resp.assigned_reviewers) := by
  constructor
  · exact create_pull_request_reviewer_bounds.1 exampleDB "pr-2" "Fix bug" "u4"
      exampleCreateResp exampleCreatedDB rfl
  · exact create_pull_request_reviewer_bounds.2 exampleDB "pr-2" "Fix bug" "u4"
      ⟨"u4", "payments", "David", true⟩ rfl rfl rfl (by decide) (by decide)
